import Mathlib

/-
Shallow embedding of the repository tomdstone/ant_interface_code.

Source files modelled here:
  - ANT_MNE_python_util.py  (functions ant_mne_dig2mont, ant_mne_create_montage,
    ant_mne_create_raw)
  - libeep-3.3.177/python/demo_write_cnt.py  (a straight-line smoke-test script)

Modelling conventions:
  - csv values read by pandas are modelled as exact rationals; numpy vectors of
    three floats become triples.
  - External library calls (mne.io.read_raw_eeglab, mne.channels.read_dig_montage,
    mne.channels.read_montage, raw.save, raw.set_montage, raw.plot_sensors,
    libeep.write_cnt, cnt.add_samples) are not code of this repository; their
    results are taken as parameters and the calls the repository issues are
    recorded in an explicit trace.
  - Python exceptions (AssertionError from assert statements, ValueError from
    list.index) become an Except monad.
  - np.linalg.norm is the Euclidean norm, modelled over the reals with Real.sqrt.
-/

set_option maxRecDepth 100000

deriving instance DecidableEq for Except

namespace AntMNE

/-- Exceptions that the repository code can raise: assert statements raise
AssertionError with their message, and Python list.index raises ValueError
when the element is absent. -/
inductive PyError where
  | assertionError (msg : String)
  | valueError (msg : String)
deriving DecidableEq

/-- Extract the payload of a successful Except result, with a default. -/
def okD {α : Type} (r : Except PyError α) (d : α) : α :=
  match r with
  | .ok a => a
  | .error _ => d

/-- Test whether a result is a raised ValueError (as opposed to a success or
an AssertionError). -/
def raisesValueError {α : Type} (r : Except PyError α) : Bool :=
  match r with
  | .error (.valueError _) => true
  | _ => false

/-- A three dimensional coordinate as read from the csv file (exact values). -/
abbrev Vec3 := ℚ × ℚ × ℚ

/-- A three dimensional coordinate after real-valued library processing. -/
abbrev RVec3 := ℝ × ℝ × ℝ

def vzero : Vec3 := (0, 0, 0)

def rvzero : RVec3 := (0, 0, 0)

/-- Componentwise division of a coordinate by a scalar (numpy array / scalar). -/
def vdiv (v : Vec3) (d : ℚ) : Vec3 := (v.1 / d, v.2.1 / d, v.2.2 / d)

/-- Cast an exact csv coordinate into the reals. -/
def castVec (v : Vec3) : RVec3 := ((v.1 : ℝ), (v.2.1 : ℝ), (v.2.2 : ℝ))

/-- Componentwise subtraction of coordinates (numpy array subtraction). -/
def vsub (a b : RVec3) : RVec3 := (a.1 - b.1, a.2.1 - b.2.1, a.2.2 - b.2.2)

/-- Euclidean norm of a 3-vector: the meaning of np.linalg.norm on a
length-3 array. -/
noncomputable def npNorm (v : RVec3) : ℝ :=
  Real.sqrt (v.1 ^ 2 + v.2.1 ^ 2 + v.2.2 ^ 2)

/-- Python str.strip with an explicit character set: removes all leading and
trailing characters belonging to the set (NOT prefix/suffix removal). -/
def pyStrip (s : String) (chars : String) : String :=
  String.mk (((s.toList.dropWhile (fun c => c ∈ chars.toList)).reverse.dropWhile
    (fun c => c ∈ chars.toList)).reverse)

/-- Python str.strip with no argument: removes leading and trailing whitespace. -/
def pyStripWs (s : String) : String :=
  String.mk (((s.toList.dropWhile Char.isWhitespace).reverse.dropWhile
    Char.isWhitespace).reverse)

/-- Python list.index: index of the first occurrence, or failure (the caller
turns the failure into a ValueError). -/
def pyIndex (l : List String) (a : String) : Option ℕ :=
  match l with
  | [] => none
  | x :: xs => if x = a then some 0 else (pyIndex xs a).map (· + 1)

/-- Test whether a string starts with the path separator. -/
def headIsSlash (s : String) : Bool :=
  match s.toList with
  | [] => false
  | c :: _ => c = '/'

/-- Test whether a string ends with the path separator. -/
def lastIsSlash (s : String) : Bool :=
  match s.toList.reverse with
  | [] => false
  | c :: _ => c = '/'

/-- os.path.join for two components (posixpath semantics): an absolute second
component wins; otherwise the parts are glued with one separator. -/
def op_join (a b : String) : String :=
  if headIsSlash b then b
  else if a = "" ∨ lastIsSlash a then a ++ b
  else a ++ "/" ++ b

/-- One row of the digitization csv file produced by ANT_MNE_fastscan.m:
a label and the X, Y, Z coordinate columns. -/
structure CsvRow where
  label : String
  x : ℚ
  y : ℚ
  z : ℚ
deriving DecidableEq

/-- Line 123 of ANT_MNE_python_util.py:
point_names is the list of whitespace-stripped labels of the csv rows. -/
def pointNamesOf (rows : List CsvRow) : List String :=
  rows.map (fun r => pyStripWs r.label)

/-- Lines 126-127 of ANT_MNE_python_util.py:
elp is the array of X, Y, Z values of the csv rows (shape (n, 3)). -/
def elpOf (rows : List CsvRow) : List Vec3 :=
  rows.map (fun r => (r.x, r.y, r.z))

/-- The Montage object of MNE versions before 0.19, as used by the old-API
path (fields touched by the repository code only). -/
structure Montage where
  kind : String
  ch_names : List String
  nasion : RVec3
  lpa : RVec3
  rpa : RVec3
  pos : List RVec3
  selection : List ℕ

/-- The DigMontage object returned by the external MNE call
read_dig_montage(elp, point_names, unit auto, transform=True) on the
old-API path.  That call is external library code, so its output (electrode
and landmark positions already transformed to head coordinates and rescaled
to meters) is taken as a parameter of the embedding. -/
structure RDigMontage where
  point_names : List String
  elp : List RVec3
  nasion : RVec3
  lpa : RVec3
  rpa : RVec3

/-- The DigMontage constructed on the new-API path and handed to the external
MNE call make_dig_montage(ch_pos, nasion, lpa, rpa).  ch_pos models the
Python dict: the list holds the loop assignments in order (for duplicate
labels the dict would keep the last assignment). -/
structure DigMontage where
  ch_pos : List (String × Vec3)
  nasion : Vec3
  lpa : Vec3
  rpa : Vec3
deriving DecidableEq

/-- Lines 33-84 of ANT_MNE_python_util.py, function ant_mne_dig2mont.
The source mutates the montage argument and then asserts; the mutation is
observable only on the success path, so the embedding builds the updated
record and checks the two assert statements of lines 81-82 in order.
The selection assert all(montage.selection == np.arange(132)) is modelled as
list equality with List.range 132, which is the numpy elementwise comparison
when the lengths agree. -/
def ant_mne_dig2mont (montage : Montage) (digmontage : RDigMontage)
    (kind : String) : Except PyError Montage :=
  if (digmontage.elp ++ [digmontage.nasion, digmontage.lpa, digmontage.rpa]).length = 132 then
    if montage.selection ++ [131] = List.range 132 then
      .ok { montage with
            kind := kind,
            ch_names := digmontage.point_names ++ ["Nz", "LPA", "RPA"],
            nasion := digmontage.nasion,
            lpa := digmontage.lpa,
            rpa := digmontage.rpa,
            pos := digmontage.elp ++ [digmontage.nasion, digmontage.lpa, digmontage.rpa],
            selection := montage.selection ++ [131] }
    else .error (.assertionError "Selection index is not selecting all 132 positions!")
  else .error (.assertionError "Dimension of montage positions is changed!")

/-- Lines 130-145 of ANT_MNE_python_util.py: the new_MNEv=True branch of
ant_mne_create_montage.  Channel positions are the rows from index 3 on,
divided by 1000; the assert of line 135 is checked before the dict is built
and before the landmark lookups of lines 141-143 (list.index raises
ValueError when the label is absent).  The condition shape[1] == 3 of the
assert holds structurally here because coordinates are modelled as triples. -/
def ant_mne_create_montage_new (rows : List CsvRow) : Except PyError DigMontage :=
  if ((pointNamesOf rows).drop 3).length = (((elpOf rows).drop 3).map (fun v => vdiv v 1000)).length ∧
      (((elpOf rows).drop 3).map (fun v => vdiv v 1000)).length = 129 then
    match pyIndex (pointNamesOf rows) "nasion" with
    | none => .error (.valueError "nasion is not in list")
    | some ni =>
      match pyIndex (pointNamesOf rows) "lpa" with
      | none => .error (.valueError "lpa is not in list")
      | some li =>
        match pyIndex (pointNamesOf rows) "rpa" with
        | none => .error (.valueError "rpa is not in list")
        | some ri =>
          .ok { ch_pos := ((pointNamesOf rows).drop 3).zip
                  (((elpOf rows).drop 3).map (fun v => vdiv v 1000)),
                nasion := vdiv ((elpOf rows).getD ni vzero) 1000,
                lpa := vdiv ((elpOf rows).getD li vzero) 1000,
                rpa := vdiv ((elpOf rows).getD ri vzero) 1000 }
  else .error (.assertionError "Dimensions of labels and electrodes are incorrect!")

/-- Lines 147-176 of ANT_MNE_python_util.py: the new_MNEv=False branch of
ant_mne_create_montage.  Evaluation order follows the source: line 152
computes old_ppd, whose rpa and lpa lookups (rpa first) can raise ValueError
before the dimension assert of line 156 is evaluated; then the ppd assert of
line 169 compares the external transformed distance, rescaled to
millimeters, against old_ppd with strict tolerance 1e-12; finally the
template montage returned by the external read_montage(kind=biosemi128)
call (the template parameter) is converted with ant_mne_dig2mont. -/
noncomputable def ant_mne_create_montage_old (rows : List CsvRow)
    (digmontage : RDigMontage) (template : Montage) : Except PyError Montage :=
  match pyIndex (pointNamesOf rows) "rpa" with
  | none => .error (.valueError "rpa is not in list")
  | some ri =>
    match pyIndex (pointNamesOf rows) "lpa" with
    | none => .error (.valueError "lpa is not in list")
    | some li =>
      if (pointNamesOf rows).length = (elpOf rows).length ∧ (elpOf rows).length = 132 then
        if |npNorm (vsub digmontage.rpa digmontage.lpa) * 1000 -
            npNorm (vsub (castVec ((elpOf rows).getD ri vzero))
              (castVec ((elpOf rows).getD li vzero)))| < (1 : ℝ) / 1000000000000 then
          ant_mne_dig2mont template digmontage "duke129_dig"
        else .error (.assertionError "Preauricular point distance is changed in creating montage!")
      else .error (.assertionError "Dimensions of labels and electrodes are incorrect!")

/-- Line 233 of ANT_MNE_python_util.py: the version test
mne_version_n[0] < 0 and mne_version_n[1] < 19 that selects the old-API
branch of ant_mne_create_raw. -/
def mne_old_api_condition (vn : List ℤ) : Bool :=
  decide (vn.getD 0 0 < 0) && decide (vn.getD 1 0 < 19)

/-- The calls that ant_mne_create_raw issues against external libraries and
the filesystem, in order. -/
inductive ExtCall where
  | createMontage (new_MNEv : Bool)
  | readRawEeglab (input_fname : String) (withMontage : Bool)
  | setMontage
  | plotSensors
  | save (fname : String) (overwrite : Bool)
deriving DecidableEq

/-- The save calls contained in a call trace, with their overwrite flags. -/
def savesOf (tr : List ExtCall) : List (String × Bool) :=
  tr.filterMap (fun c =>
    match c with
    | .save fname b => some (fname, b)
    | _ => none)

/-- Lines 181-274 of ANT_MNE_python_util.py, function ant_mne_create_raw.
mne_version_n is the parsed version of the detected MNE library; the csv
contents stand in for (csvfn, dig_filepath); digmontage and template are the
outputs of the external calls used by the old-API branch.  The result is the
ordered trace of external calls together with the run outcome: an exception
raised by ant_mne_create_montage propagates (line 236 runs before
read_raw_eeglab on the old branch; line 261 runs after it on the new
branch), and the save of lines 243-245 and 270-272 happens only when
overwrite is not None, writing to
op.join(set_filepath, setfn.strip(".set") + "_raw.fif"). -/
noncomputable def ant_mne_create_raw (mne_version_n : List ℤ)
    (setfn : String) (set_filepath : String) (rows : List CsvRow)
    (digmontage : RDigMontage) (template : Montage) (overwrite : Option Bool) :
    List ExtCall × Except PyError Unit :=
  if mne_old_api_condition mne_version_n then
    match ant_mne_create_montage_old rows digmontage template with
    | .error e => ([.createMontage false], .error e)
    | .ok _ =>
      match overwrite with
      | some b =>
        ([.createMontage false, .readRawEeglab (op_join set_filepath setfn) true,
          .save (op_join set_filepath (pyStrip setfn ".set" ++ "_raw.fif")) b], .ok ())
      | none =>
        ([.createMontage false, .readRawEeglab (op_join set_filepath setfn) true], .ok ())
  else
    match ant_mne_create_montage_new rows with
    | .error e =>
      ([.readRawEeglab (op_join set_filepath setfn) false, .plotSensors,
        .createMontage true], .error e)
    | .ok _ =>
      match overwrite with
      | some b =>
        ([.readRawEeglab (op_join set_filepath setfn) false, .plotSensors,
          .createMontage true, .setMontage, .plotSensors,
          .save (op_join set_filepath (pyStrip setfn ".set" ++ "_raw.fif")) b], .ok ())
      | none =>
        ([.readRawEeglab (op_join set_filepath setfn) false, .plotSensors,
          .createMontage true, .setMontage, .plotSensors], .ok ())

/-- The calls the smoke-test script issues against the libeep binding. -/
inductive LibeepCall where
  | write_cnt (fname : String) (rate : ℕ) (channels : List (String × String × String)) (rf64 : ℕ)
  | add_samples (samples : List ℤ)
deriving DecidableEq

/-- libeep-3.3.177/python/demo_write_cnt.py, module body: open python.cnt at
512 Hz with two (Cz, ref empty, uV) channels, write one batch of 8
interleaved values (4 samples of 2 channels), then 1024 single-sample
batches of 2 values each. -/
def demo_write_cnt : List LibeepCall :=
  .write_cnt "python.cnt" 512 [("Cz", "", "uV"), ("Cz", "", "uV")] 0 ::
  .add_samples [0, 0, 1, 0, 2, 0, 3, 0] ::
  (List.range 1024).map (fun n => .add_samples [13, (n : ℤ)])

/-- A one-row csv with an unrelated label: wrong row count and no landmarks. -/
def badRow1 : List CsvRow := [⟨"x", 1, 2, 3⟩]

/-- A two-row csv carrying the rpa and lpa labels: wrong row count, with the
landmark lookups of the old-API path able to succeed. -/
def rows2bad : List CsvRow := [⟨"rpa", 0, 0, 0⟩, ⟨"lpa", 0, 0, 0⟩]

/-- A 132-row csv whose labels are all channel names: correct row count but
no landmark labels at all. -/
def rows132bad : List CsvRow :=
  (List.range 132).map (fun i => ⟨"E" ++ toString i, 0, 0, 0⟩)

/-- A well-formed 132-row csv with the three landmarks in the first three
rows, as ANT_MNE_fastscan.m produces. -/
def wCsv : List CsvRow :=
  ⟨"nasion", 1, 0, 0⟩ :: ⟨"lpa", 0, 1, 0⟩ :: ⟨"rpa", 0, 0, 1⟩ ::
  (List.range 129).map (fun i => ⟨"E" ++ toString i, 0, 0, 0⟩)

/-- A 132-row csv in which the landmark labels sit at indices 3, 4 and 5
rather than among the first three rows. -/
def wCsv9 : List CsvRow :=
  ⟨"a", 0, 0, 0⟩ :: ⟨"b", 0, 0, 0⟩ :: ⟨"c", 0, 0, 0⟩ ::
  ⟨"nasion", 5, 6, 7⟩ :: ⟨"lpa", 0, 1, 0⟩ :: ⟨"rpa", 0, 0, 1⟩ ::
  (List.range 126).map (fun i => ⟨"E" ++ toString i, 0, 0, 0⟩)

/-- A 132-row csv with rpa and lpa in the first two rows and unit distance
between them, used to exercise the preauricular distance check. -/
def w6rows : List CsvRow :=
  ⟨"rpa", 1, 0, 0⟩ :: ⟨"lpa", 0, 0, 0⟩ :: ⟨"nasion", 0, 1, 0⟩ ::
  (List.range 129).map (fun i => ⟨"E" ++ toString i, 0, 0, 0⟩)

/-- A trivial external DigMontage result (all positions at the origin). -/
def wDig0 : RDigMontage :=
  { point_names := [], elp := [], nasion := rvzero, lpa := rvzero, rpa := rvzero }

/-- An external DigMontage result whose rpa sits 1 millimeter (1/1000 meter)
from its lpa, matching the unit-millimeter distance of w6rows. -/
noncomputable def w6dig : RDigMontage :=
  { point_names := [], elp := [], nasion := rvzero, lpa := rvzero,
    rpa := ((1 / 1000 : ℝ), (0 : ℝ), (0 : ℝ)) }

/-- A trivial template Montage (the external read_montage result). -/
def wMont0 : Montage :=
  { kind := "biosemi128", ch_names := [], nasion := rvzero, lpa := rvzero,
    rpa := rvzero, pos := [], selection := [] }

/-- A template Montage whose selection covers the 131 template channels, as
the biosemi128-based duke template provides. -/
def w7mont : Montage :=
  { kind := "biosemi128", ch_names := ["a"], nasion := rvzero, lpa := rvzero,
    rpa := rvzero, pos := [], selection := List.range 131 }

/-- An external DigMontage result with 129 digitized electrode positions. -/
def w7dig : RDigMontage :=
  { point_names := (List.range 129).map (fun i => "d" ++ toString i),
    elp := List.replicate 129 rvzero,
    nasion := rvzero, lpa := rvzero, rpa := rvzero }

/-- The Montage that ant_mne_dig2mont produces from w7mont and w7dig. -/
def w7out : Montage :=
  okD (ant_mne_dig2mont w7mont w7dig "duke129_dig") w7mont

/-- The DigMontage that the new-API path produces from wCsv. -/
def m4 : DigMontage :=
  okD (ant_mne_create_montage_new wCsv) ⟨[], vzero, vzero, vzero⟩

/-- The DigMontage that the new-API path produces from wCsv9. -/
def m9 : DigMontage :=
  okD (ant_mne_create_montage_new wCsv9) ⟨[], vzero, vzero, vzero⟩

/-
Helper lemmas about the Python-primitive models.
-/

theorem pyIndex_of_not_mem (l : List String) (a : String) (h : a ∉ l) :
    pyIndex l a = none := by
  induction l with
  | nil => rfl
  | cons x xs ih =>
    simp only [List.mem_cons, not_or] at h
    simp only [pyIndex]
    rw [if_neg (fun he : x = a => h.1 he.symm), ih h.2]
    rfl

theorem pyIndex_of_mem (l : List String) (a : String) (h : a ∈ l) :
    ∃ i, pyIndex l a = some i := by
  induction l with
  | nil => cases h
  | cons x xs ih =>
    by_cases hx : x = a
    · exact ⟨0, by simp [pyIndex, hx]⟩
    · obtain ⟨i, hi⟩ := ih (by
        rcases List.mem_cons.mp h with h1 | h2
        · exact absurd h1.symm hx
        · exact h2)
      exact ⟨i + 1, by simp [pyIndex, hx, hi]⟩

theorem pyIndex_getD (l : List String) (a : String) (i : ℕ) (d : String)
    (h : pyIndex l a = some i) : i < l.length ∧ l.getD i d = a := by
  induction l generalizing i with
  | nil => cases h
  | cons x xs ih =>
    by_cases hx : x = a
    · simp only [pyIndex, if_pos hx, Option.some.injEq] at h
      subst h
      simp [hx]
    · simp only [pyIndex, if_neg hx, Option.map_eq_some'] at h
      obtain ⟨j, hj, hji⟩ := h
      subst hji
      obtain ⟨hlt, hget⟩ := ih j hj
      exact ⟨by simpa using Nat.succ_lt_succ hlt, by simpa using hget⟩

theorem zip_map_fst {α β : Type} (l₁ : List α) (l₂ : List β)
    (h : l₁.length = l₂.length) : (l₁.zip l₂).map Prod.fst = l₁ := by
  induction l₁ generalizing l₂ with
  | nil => simp
  | cons a t ih =>
    cases l₂ with
    | nil => simp at h
    | cons b t₂ => simp [ih t₂ (by simpa using h)]

theorem zip_map_snd {α β : Type} (l₁ : List α) (l₂ : List β)
    (h : l₁.length = l₂.length) : (l₁.zip l₂).map Prod.snd = l₂ := by
  induction l₁ generalizing l₂ with
  | nil => cases l₂ with
    | nil => simp
    | cons b t₂ => simp at h
  | cons a t ih =>
    cases l₂ with
    | nil => simp at h
    | cons b t₂ => simp [ih t₂ (by simpa using h)]

theorem getD_mem_zip {α β : Type} (l₁ : List α) (l₂ : List β) (d₁ : α) (d₂ : β)
    (i : ℕ) (h₁ : i < l₁.length) (h₂ : i < l₂.length) :
    (l₁.getD i d₁, l₂.getD i d₂) ∈ l₁.zip l₂ := by
  induction l₁ generalizing l₂ i with
  | nil => simp at h₁
  | cons a t ih =>
    cases l₂ with
    | nil => simp at h₂
    | cons b t₂ =>
      cases i with
      | zero => simp [List.zip_cons_cons]
      | succ n =>
        simp only [List.zip_cons_cons, List.getD_cons_succ, List.mem_cons]
        exact Or.inr (ih t₂ n (by simpa using h₁) (by simpa using h₂))

theorem getD_drop {α : Type} (l : List α) (n i : ℕ) (d : α) :
    (l.drop n).getD i d = l.getD (n + i) d := by
  induction n generalizing l with
  | zero => simp
  | succ k ih =>
    cases l with
    | nil => simp
    | cons a t =>
      have hki : k + 1 + i = (k + i) + 1 := by omega
      rw [List.drop_succ_cons, hki, List.getD_cons_succ]
      exact ih t

theorem getD_map {α β : Type} (f : α → β) (l : List α) (i : ℕ) (d : α) :
    (l.map f).getD i (f d) = f (l.getD i d) := by
  induction l generalizing i with
  | nil => simp
  | cons a t ih => cases i <;> simp [ih]

/-
Claim theorems.
-/

/-- C8: the smoke-test script opens python.cnt at sampling rate 512 with
exactly two channels, both (Cz, uV), writes one batch of 8 interleaved
values (4 samples of the 2 channels), then 1024 single-sample batches of 2
values each, and performs no other operations (1026 calls in total). -/
theorem demo_write_cnt_operations :
    demo_write_cnt.length = 1026 ∧
    demo_write_cnt.take 2 =
      [.write_cnt "python.cnt" 512 [("Cz", "", "uV"), ("Cz", "", "uV")] 0,
       .add_samples [0, 0, 1, 0, 2, 0, 3, 0]] ∧
    demo_write_cnt.drop 2 = (List.range 1024).map (fun n => .add_samples [13, (n : ℤ)]) ∧
    (demo_write_cnt.drop 2).all (fun c =>
      match c with
      | .add_samples s => s.length = 2
      | _ => false) = true :=
  ⟨by decide, by decide, by decide, by decide⟩

/-- C1: ant_mne_create_raw branches on mne_version_n[0] < 0 and
mne_version_n[1] < 19.  For the real version 0.18.2 (components [0, 18, 2])
the test is false, because 0 < 0 fails, so even this pre-0.19 version takes
the new-API call sequence: read_raw_eeglab without a montage, then
set_montage with a DigMontage.  This contradicts the documented intent that
versions before 0.19 take the old-API sequence; the old-API branch is dead
for every real (nonnegative-major) version. -/
theorem mne_version_branch_dead_for_v018 :
    mne_old_api_condition [0, 18, 2] = false ∧
    (ant_mne_create_raw [0, 18, 2] "a01.set" "/d" wCsv wDig0 wMont0 (some true)).1 =
      [.readRawEeglab "/d/a01.set" false, .plotSensors, .createMontage true,
       .setMontage, .plotSensors, .save "/d/a01_raw.fif" true] :=
  ⟨by decide, by decide⟩

/-- C2 counterexample: for the input filename test.set the code computes the
output base name with Python strip semantics, which removes every leading
and trailing character of the set drawn from ".set" characters and collapses
the whole base name, so the save goes to /d/_raw.fif and not to
/d/test_raw.fif as removal of the .set extension would give. -/
theorem save_name_not_extension_removal :
    savesOf (ant_mne_create_raw [1, 0, 0] "test.set" "/d" wCsv wDig0 wMont0 (some true)).1 =
      [("/d/_raw.fif", true)] ∧
    ("/d/_raw.fif" : String) ≠ "/d/test_raw.fif" :=
  ⟨by decide, by decide⟩

/-- C3 counterexample: a one-row csv has the wrong row count, yet on the
old-API path the run dies with a ValueError from the rpa label lookup of
line 152, not with the AssertionError that the claim promises for every
dimension mismatch. -/
theorem dims_mismatch_can_raise_valueerror :
    badRow1.length ≠ 132 ∧
    ant_mne_create_montage_old badRow1 wDig0 wMont0 =
      .error (.valueError "rpa is not in list") :=
  ⟨by decide, rfl⟩

/-- C5 counterexample: with overwrite=True but a csv that fails the
dimension assertion, ant_mne_create_raw performs no save at all, so
performing the save is not equivalent to the overwrite argument being
non-None. -/
theorem overwrite_some_without_save :
    (some true : Option Bool) ≠ none ∧
    savesOf (ant_mne_create_raw [1, 0, 0] "a01.set" "/d" badRow1 wDig0 wMont0 (some true)).1 = [] :=
  ⟨by decide, by decide⟩

/-- C10 counterexample: a csv missing all landmark labels but with the wrong
row count makes the new-API path raise the dimension AssertionError of line
135 before any label lookup, not a ValueError. -/
theorem missing_label_can_raise_assertion :
    "nasion" ∉ pointNamesOf badRow1 ∧
    ant_mne_create_montage_new badRow1 =
      .error (.assertionError "Dimensions of labels and electrodes are incorrect!") :=
  ⟨by decide, by decide⟩

/-- C7: on success, ant_mne_dig2mont returns the input montage mutated so
that ch_names is the digmontage point names followed by Nz, LPA, RPA, pos is
the row-stack of the digmontage electrode positions with nasion, lpa and rpa
(132 rows of 3 coordinates), and selection is the input selection with index
131 appended, equal to arange(132); the last two facts are exactly the two
assert conditions checked before returning. -/
theorem dig2mont_appends_landmarks_and_asserts (montage : Montage)
    (digmontage : RDigMontage) (kind : String) (m : Montage)
    (h : ant_mne_dig2mont montage digmontage kind = .ok m) :
    m.ch_names = digmontage.point_names ++ ["Nz", "LPA", "RPA"] ∧
    m.pos = digmontage.elp ++ [digmontage.nasion, digmontage.lpa, digmontage.rpa] ∧
    m.pos.length = 132 ∧
    m.selection = montage.selection ++ [131] ∧
    m.selection = List.range 132 := by
  unfold ant_mne_dig2mont at h
  split at h
  · split at h
    · injection h with h2
      subst h2
      refine ⟨rfl, rfl, ?_, rfl, ?_⟩
      · assumption
      · assumption
    · exact absurd h (by simp)
  · exact absurd h (by simp)

/-- C7 witness: a template with selection arange(131) and an external
digmontage with 129 electrode positions make ant_mne_dig2mont succeed, and
the asserted facts hold of the result. -/
theorem dig2mont_appends_landmarks_and_asserts_witness :
    ant_mne_dig2mont w7mont w7dig "duke129_dig" = .ok w7out ∧
    w7out.pos.length = 132 ∧
    w7out.selection = List.range 132 := by
  have h : ant_mne_dig2mont w7mont w7dig "duke129_dig" = .ok w7out := rfl
  exact ⟨h, (dig2mont_appends_landmarks_and_asserts w7mont w7dig "duke129_dig" w7out h).2.2.1,
    (dig2mont_appends_landmarks_and_asserts w7mont w7dig "duke129_dig" w7out h).2.2.2.2⟩

/-- C4: on the new-API path every coordinate handed to make_dig_montage is
the corresponding csv value divided by 1000: each channel position is its
csv row divided by 1000, and nasion, lpa and rpa are the rows found by label
lookup, divided by 1000 (millimeters on disk become meters). -/
theorem create_montage_new_scales_mm_to_m (rows : List CsvRow) (m : DigMontage)
    (h : ant_mne_create_montage_new rows = .ok m) :
    m.ch_pos.map Prod.snd = ((elpOf rows).drop 3).map (fun v => vdiv v 1000) ∧
    (∃ i, pyIndex (pointNamesOf rows) "nasion" = some i ∧
      m.nasion = vdiv ((elpOf rows).getD i vzero) 1000) ∧
    (∃ i, pyIndex (pointNamesOf rows) "lpa" = some i ∧
      m.lpa = vdiv ((elpOf rows).getD i vzero) 1000) ∧
    (∃ i, pyIndex (pointNamesOf rows) "rpa" = some i ∧
      m.rpa = vdiv ((elpOf rows).getD i vzero) 1000) := by
  unfold ant_mne_create_montage_new at h
  split at h
  case isTrue hdim =>
    split at h
    · exact absurd h (by simp)
    case _ ni hni =>
      split at h
      · exact absurd h (by simp)
      case _ li hli =>
        split at h
        · exact absurd h (by simp)
        case _ ri hri =>
          injection h with h2
          subst h2
          exact ⟨zip_map_snd _ _ hdim.1, ⟨ni, hni, rfl⟩, ⟨li, hli, rfl⟩, ⟨ri, hri, rfl⟩⟩
  case isFalse => exact absurd h (by simp)

/-- C4 witness: on the well-formed 132-row csv the new-API path succeeds,
all channel positions are the csv rows divided by 1000, and nasion is the
row at its looked-up index (0) divided by 1000. -/
theorem create_montage_new_scales_mm_to_m_witness :
    ant_mne_create_montage_new wCsv = .ok m4 ∧
    m4.ch_pos.map Prod.snd = ((elpOf wCsv).drop 3).map (fun v => vdiv v 1000) ∧
    m4.nasion = vdiv ((elpOf wCsv).getD 0 vzero) 1000 := by
  have h : ant_mne_create_montage_new wCsv = .ok m4 := rfl
  refine ⟨h, (create_montage_new_scales_mm_to_m wCsv m4 h).1, ?_⟩
  obtain ⟨i, hi, hv⟩ := (create_montage_new_scales_mm_to_m wCsv m4 h).2.1
  have h0 : pyIndex (pointNamesOf wCsv) "nasion" = some 0 := by decide
  rw [h0] at hi
  injection hi with hi2
  subst hi2
  exact hv

/-- C9: on the new-API path exactly the first three csv rows are excluded
from the channel-position dict regardless of their labels (the dict keys are
the labels from index 3 on, paired positionally with the rows from index 3
on, divided by 1000), while the landmarks are located by label search over
the whole file; consequently any label found at an index of at least 3 is
also included as a channel position with its coordinates. -/
theorem create_montage_new_positional_exclusion (rows : List CsvRow) (m : DigMontage)
    (h : ant_mne_create_montage_new rows = .ok m) :
    m.ch_pos = ((pointNamesOf rows).drop 3).zip
      (((elpOf rows).drop 3).map (fun v => vdiv v 1000)) ∧
    m.ch_pos.map Prod.fst = (pointNamesOf rows).drop 3 ∧
    (∀ s i, pyIndex (pointNamesOf rows) s = some i → 3 ≤ i →
      (s, vdiv ((elpOf rows).getD i vzero) 1000) ∈ m.ch_pos) := by
  unfold ant_mne_create_montage_new at h
  split at h
  case isTrue hdim =>
    split at h
    · exact absurd h (by simp)
    case _ ni hni =>
      split at h
      · exact absurd h (by simp)
      case _ li hli =>
        split at h
        · exact absurd h (by simp)
        case _ ri hri =>
          injection h with h2
          subst h2
          refine ⟨rfl, zip_map_fst _ _ hdim.1, ?_⟩
          intro s i hsi h3
          obtain ⟨hilt, hget⟩ := pyIndex_getD _ _ _ "" hsi
          have hlen_names : (pointNamesOf rows).length = rows.length := by
            simp [pointNamesOf]
          have hlen_elp : (elpOf rows).length = rows.length := by
            simp [elpOf]
          have h1 : ((pointNamesOf rows).drop 3).getD (i - 3) "" = s := by
            rw [getD_drop, show 3 + (i - 3) = i by omega]
            exact hget
          have h2 : (((elpOf rows).drop 3).map (fun v => vdiv v 1000)).getD (i - 3)
              (vdiv vzero 1000) = vdiv ((elpOf rows).getD i vzero) 1000 := by
            rw [getD_map (fun v => vdiv v 1000) ((elpOf rows).drop 3) (i - 3) vzero]
            rw [getD_drop, show 3 + (i - 3) = i by omega]
          have hb1 : i - 3 < ((pointNamesOf rows).drop 3).length := by
            simp only [List.length_drop]
            omega
          have hb2 : i - 3 < (((elpOf rows).drop 3).map (fun v => vdiv v 1000)).length := by
            rw [hlen_names] at hilt
            simp only [List.length_map, List.length_drop, hlen_elp]
            omega
          have hmem := getD_mem_zip ((pointNamesOf rows).drop 3)
            (((elpOf rows).drop 3).map (fun v => vdiv v 1000)) "" (vdiv vzero 1000)
            (i - 3) hb1 hb2
          rw [h1, h2] at hmem
          exact hmem
  case isFalse => exact absurd h (by simp)

/-- C9 witness: in the csv whose landmarks sit at indices 3, 4 and 5, the
nasion row (looked up at index 3, beyond the first three rows) is also
included as a channel position. -/
theorem create_montage_new_positional_exclusion_witness :
    ant_mne_create_montage_new wCsv9 = .ok m9 ∧
    (pointNamesOf wCsv9).getD 3 "" = "nasion" ∧
    ("nasion", vdiv ((elpOf wCsv9).getD 3 vzero) 1000) ∈ m9.ch_pos := by
  have h : ant_mne_create_montage_new wCsv9 = .ok m9 := rfl
  refine ⟨h, by decide, ?_⟩
  exact (create_montage_new_positional_exclusion wCsv9 m9 h).2.2 "nasion" 3 (by decide) (by decide)

/-- C3 amended: a csv without exactly 132 rows (132 labeled rows on the
old-API path, equivalently 129 channel rows after dropping the first three
on the new-API path) makes ant_mne_create_montage raise the dimension
AssertionError immediately on the new-API path, and also on the old-API
path provided the rpa and lpa labels are present (otherwise the label
lookup of line 152 raises a ValueError first); in either case the exception
propagates through ant_mne_create_raw, which performs no save, so no
_raw.fif file is written. -/
theorem dimension_mismatch_aborts_without_save (vn : List ℤ) (setfn fp : String)
    (rows : List CsvRow) (dig : RDigMontage) (t : Montage) (ow : Option Bool)
    (hlen : rows.length ≠ 132)
    (hrpa : "rpa" ∈ pointNamesOf rows) (hlpa : "lpa" ∈ pointNamesOf rows) :
    ant_mne_create_montage_new rows =
      .error (.assertionError "Dimensions of labels and electrodes are incorrect!") ∧
    ant_mne_create_montage_old rows dig t =
      .error (.assertionError "Dimensions of labels and electrodes are incorrect!") ∧
    (ant_mne_create_raw vn setfn fp rows dig t ow).2 =
      .error (.assertionError "Dimensions of labels and electrodes are incorrect!") ∧
    savesOf (ant_mne_create_raw vn setfn fp rows dig t ow).1 = [] := by
  have hnew : ant_mne_create_montage_new rows =
      .error (.assertionError "Dimensions of labels and electrodes are incorrect!") := by
    unfold ant_mne_create_montage_new
    rw [if_neg]
    intro hc
    have h1 := hc.2
    simp only [List.length_map, List.length_drop, elpOf] at h1
    omega
  have hold : ant_mne_create_montage_old rows dig t =
      .error (.assertionError "Dimensions of labels and electrodes are incorrect!") := by
    obtain ⟨ri, hri⟩ := pyIndex_of_mem _ _ hrpa
    obtain ⟨li, hli⟩ := pyIndex_of_mem _ _ hlpa
    unfold ant_mne_create_montage_old
    simp only [hri, hli]
    rw [if_neg]
    intro hc
    have h2 := hc.2
    simp only [elpOf, List.length_map] at h2
    exact hlen h2
  refine ⟨hnew, hold, ?_, ?_⟩
  · cases hb : mne_old_api_condition vn
    · simp [ant_mne_create_raw, hb, hnew]
    · simp [ant_mne_create_raw, hb, hold]
  · cases hb : mne_old_api_condition vn
    · simp [ant_mne_create_raw, hb, hnew, savesOf]
    · simp [ant_mne_create_raw, hb, hold, savesOf]

/-- C3 witness: a two-row csv carrying the rpa and lpa labels triggers the
dimension AssertionError, and a create_raw run on it with overwrite=True
performs no save. -/
theorem dimension_mismatch_aborts_without_save_witness :
    ant_mne_create_montage_new rows2bad =
      .error (.assertionError "Dimensions of labels and electrodes are incorrect!") ∧
    savesOf (ant_mne_create_raw [1, 0, 0] "a01.set" "/d" rows2bad wDig0 wMont0 (some true)).1 = [] := by
  have h := dimension_mismatch_aborts_without_save [1, 0, 0] "a01.set" "/d" rows2bad
    wDig0 wMont0 (some true) (by decide) (by decide) (by decide)
  exact ⟨h.1, h.2.2.2⟩

/-- C6: on the old-API path, after the rpa and lpa lookups and the dimension
assert succeed, the run compares the preauricular distance computed from the
raw csv coordinates (millimeters) with the distance between the externally
transformed rpa and lpa rescaled by 1000 back to millimeters: the montage is
built whenever the absolute difference is strictly below 1e-12, and the ppd
AssertionError is raised otherwise. -/
theorem old_path_ppd_tolerance_check (rows : List CsvRow) (dig : RDigMontage)
    (t : Montage) (i j : ℕ)
    (hri : pyIndex (pointNamesOf rows) "rpa" = some i)
    (hlj : pyIndex (pointNamesOf rows) "lpa" = some j)
    (hdim : (pointNamesOf rows).length = (elpOf rows).length ∧ (elpOf rows).length = 132) :
    (|npNorm (vsub dig.rpa dig.lpa) * 1000 -
        npNorm (vsub (castVec ((elpOf rows).getD i vzero))
          (castVec ((elpOf rows).getD j vzero)))| < (1 : ℝ) / 1000000000000 →
      ant_mne_create_montage_old rows dig t = ant_mne_dig2mont t dig "duke129_dig") ∧
    (¬(|npNorm (vsub dig.rpa dig.lpa) * 1000 -
        npNorm (vsub (castVec ((elpOf rows).getD i vzero))
          (castVec ((elpOf rows).getD j vzero)))| < (1 : ℝ) / 1000000000000) →
      ant_mne_create_montage_old rows dig t =
        .error (.assertionError "Preauricular point distance is changed in creating montage!")) := by
  unfold ant_mne_create_montage_old
  simp only [hri, hlj]
  rw [if_pos hdim]
  constructor
  · intro hlt
    rw [if_pos hlt]
  · intro hge
    rw [if_neg hge]

/-- C6 witness: a csv with rpa and lpa one millimeter apart together with an
external digmontage placing them 1/1000 meter apart passes the tolerance
check (the difference is zero), so the old path proceeds to the montage
conversion. -/
theorem old_path_ppd_tolerance_check_witness :
    ant_mne_create_montage_old w6rows w6dig wMont0 =
      ant_mne_dig2mont wMont0 w6dig "duke129_dig" := by
  have key : |npNorm (vsub w6dig.rpa w6dig.lpa) * 1000 -
      npNorm (vsub (castVec ((elpOf w6rows).getD 0 vzero))
        (castVec ((elpOf w6rows).getD 1 vzero)))| < (1 : ℝ) / 1000000000000 := by
    have e1 : castVec ((elpOf w6rows).getD 0 vzero) = ((1 : ℝ), (0 : ℝ), (0 : ℝ)) := by
      norm_num [w6rows, elpOf, castVec]
    have e2 : castVec ((elpOf w6rows).getD 1 vzero) = ((0 : ℝ), (0 : ℝ), (0 : ℝ)) := by
      norm_num [w6rows, elpOf, castVec]
    have hr : w6dig.rpa = ((1 / 1000 : ℝ), (0 : ℝ), (0 : ℝ)) := rfl
    have hl : w6dig.lpa = ((0 : ℝ), (0 : ℝ), (0 : ℝ)) := rfl
    rw [e1, e2, hr, hl]
    have n1 : npNorm (vsub ((1 / 1000 : ℝ), (0 : ℝ), (0 : ℝ)) ((0 : ℝ), (0 : ℝ), (0 : ℝ))) =
        1 / 1000 := by
      show Real.sqrt (((1 / 1000 : ℝ) - 0) ^ 2 + ((0 : ℝ) - 0) ^ 2 + ((0 : ℝ) - 0) ^ 2) = 1 / 1000
      rw [show ((1 / 1000 : ℝ) - 0) ^ 2 + ((0 : ℝ) - 0) ^ 2 + ((0 : ℝ) - 0) ^ 2 =
        (1 / 1000 : ℝ) ^ 2 by norm_num]
      exact Real.sqrt_sq (by norm_num)
    have n2 : npNorm (vsub ((1 : ℝ), (0 : ℝ), (0 : ℝ)) ((0 : ℝ), (0 : ℝ), (0 : ℝ))) = 1 := by
      show Real.sqrt (((1 : ℝ) - 0) ^ 2 + ((0 : ℝ) - 0) ^ 2 + ((0 : ℝ) - 0) ^ 2) = 1
      rw [show ((1 : ℝ) - 0) ^ 2 + ((0 : ℝ) - 0) ^ 2 + ((0 : ℝ) - 0) ^ 2 = (1 : ℝ) by norm_num]
      exact Real.sqrt_one
    rw [n1, n2]
    norm_num
  exact (old_path_ppd_tolerance_check w6rows w6dig wMont0 0 1
    (by decide) (by decide) (by decide)).1 key

/-- C2 amended: whenever ant_mne_create_raw performs its save, the output
path is op.path.join of the .set directory with the input filename processed
by Python strip over the character set of ".set" (leading and trailing
characters from that set removed, not extension removal), followed by the
fixed suffix _raw.fif. -/
theorem save_path_follows_python_strip (vn : List ℤ) (setfn fp : String)
    (rows : List CsvRow) (dig : RDigMontage) (t : Montage) (ow : Option Bool)
    (f : String) (b : Bool)
    (h : ExtCall.save f b ∈ (ant_mne_create_raw vn setfn fp rows dig t ow).1) :
    f = op_join fp (pyStrip setfn ".set" ++ "_raw.fif") := by
  unfold ant_mne_create_raw at h
  split at h
  · split at h
    · simp at h
    · split at h
      · simp at h
        exact h.1
      · simp at h
  · split at h
    · simp at h
    · split at h
      · simp at h
        exact h.1
      · simp at h

/-- C2 witness: a successful run on a01.set saves to /d/a01_raw.fif, which
is exactly the python-strip name. -/
theorem save_path_follows_python_strip_witness :
    ExtCall.save "/d/a01_raw.fif" true ∈
      (ant_mne_create_raw [1, 0, 0] "a01.set" "/d" wCsv wDig0 wMont0 (some true)).1 ∧
    ("/d/a01_raw.fif" : String) = op_join "/d" (pyStrip "a01.set" ".set" ++ "_raw.fif") := by
  refine ⟨by decide, ?_⟩
  exact save_path_follows_python_strip [1, 0, 0] "a01.set" "/d" wCsv wDig0 wMont0
    (some true) "/d/a01_raw.fif" true (by decide)

/-- C5 amended: when overwrite is None no save is ever performed; every save
that does occur carries exactly the overwrite value and the strip-derived
path; and on a run that completes without an exception with overwrite not
None, exactly one save with that flag is performed. -/
theorem save_requires_overwrite_flag (vn : List ℤ) (setfn fp : String)
    (rows : List CsvRow) (dig : RDigMontage) (t : Montage) (ow : Option Bool) :
    (ow = none → savesOf (ant_mne_create_raw vn setfn fp rows dig t ow).1 = []) ∧
    (∀ f b, (f, b) ∈ savesOf (ant_mne_create_raw vn setfn fp rows dig t ow).1 →
      ow = some b ∧ f = op_join fp (pyStrip setfn ".set" ++ "_raw.fif")) ∧
    (∀ b, ow = some b → (ant_mne_create_raw vn setfn fp rows dig t ow).2 = .ok () →
      savesOf (ant_mne_create_raw vn setfn fp rows dig t ow).1 =
        [(op_join fp (pyStrip setfn ".set" ++ "_raw.fif"), b)]) := by
  unfold ant_mne_create_raw
  split
  · split
    · refine ⟨fun _ => rfl, ?_, ?_⟩
      · intro f b hf
        simp [savesOf] at hf
      · intro b hb hok
        simp at hok
    · split
      · refine ⟨?_, ?_, ?_⟩
        · intro hnone
          simp at hnone
        · intro f b hf
          simp [savesOf] at hf
          exact ⟨by rw [hf.2], hf.1⟩
        · intro b hb hok
          injection hb with hb2
          subst hb2
          simp [savesOf]
      · refine ⟨fun _ => by simp [savesOf], ?_, ?_⟩
        · intro f b hf
          simp [savesOf] at hf
        · intro b hb hok
          simp at hb
  · split
    · refine ⟨fun _ => rfl, ?_, ?_⟩
      · intro f b hf
        simp [savesOf] at hf
      · intro b hb hok
        simp at hok
    · split
      · refine ⟨?_, ?_, ?_⟩
        · intro hnone
          simp at hnone
        · intro f b hf
          simp [savesOf] at hf
          exact ⟨by rw [hf.2], hf.1⟩
        · intro b hb hok
          injection hb with hb2
          subst hb2
          simp [savesOf]
      · refine ⟨fun _ => by simp [savesOf], ?_, ?_⟩
        · intro f b hf
          simp [savesOf] at hf
        · intro b hb hok
          simp at hb

/-- C5 witness: a successful run with overwrite=False performs exactly one
save carrying the False flag and the strip-derived path. -/
theorem save_requires_overwrite_flag_witness :
    savesOf (ant_mne_create_raw [1, 0, 0] "a01.set" "/d" wCsv wDig0 wMont0 (some false)).1 =
      [(op_join "/d" (pyStrip "a01.set" ".set" ++ "_raw.fif"), false)] :=
  (save_requires_overwrite_flag [1, 0, 0] "a01.set" "/d" wCsv wDig0 wMont0
    (some false)).2.2 false rfl (by decide)

/-- C10 amended: on the new-API path, once the 129-channel dimension assert
passes, the absence of any of nasion, lpa or rpa from the stripped labels
makes ant_mne_create_montage raise a ValueError from the label lookup (with
a failing dimension assert the AssertionError comes first); on the old-API
path the absence of rpa or lpa raises the ValueError even before the
dimension assert is evaluated (nasion is not looked up there). -/
theorem missing_label_raises_valueerror_paths (rows : List CsvRow)
    (dig : RDigMontage) (t : Montage) :
    (rows.length = 132 →
      ¬("nasion" ∈ pointNamesOf rows ∧ "lpa" ∈ pointNamesOf rows ∧
          "rpa" ∈ pointNamesOf rows) →
      raisesValueError (ant_mne_create_montage_new rows) = true) ∧
    (¬("rpa" ∈ pointNamesOf rows ∧ "lpa" ∈ pointNamesOf rows) →
      raisesValueError (ant_mne_create_montage_old rows dig t) = true) := by
  constructor
  · intro hlen hmiss
    have hcond : ((pointNamesOf rows).drop 3).length =
        (((elpOf rows).drop 3).map (fun v => vdiv v 1000)).length ∧
        (((elpOf rows).drop 3).map (fun v => vdiv v 1000)).length = 129 := by
      refine ⟨by simp [pointNamesOf, elpOf], ?_⟩
      simp only [pointNamesOf, elpOf, List.length_map, List.length_drop]
      omega
    unfold ant_mne_create_montage_new
    rw [if_pos hcond]
    by_cases hn : "nasion" ∈ pointNamesOf rows
    · obtain ⟨ni, hni⟩ := pyIndex_of_mem _ _ hn
      simp only [hni]
      by_cases hl : "lpa" ∈ pointNamesOf rows
      · obtain ⟨li, hli⟩ := pyIndex_of_mem _ _ hl
        simp only [hli]
        by_cases hr : "rpa" ∈ pointNamesOf rows
        · exact absurd ⟨hn, hl, hr⟩ hmiss
        · rw [pyIndex_of_not_mem _ _ hr]
          rfl
      · rw [pyIndex_of_not_mem _ _ hl]
        rfl
    · rw [pyIndex_of_not_mem _ _ hn]
      rfl
  · intro hmiss
    unfold ant_mne_create_montage_old
    by_cases hr : "rpa" ∈ pointNamesOf rows
    · obtain ⟨ri, hri⟩ := pyIndex_of_mem _ _ hr
      simp only [hri]
      by_cases hl : "lpa" ∈ pointNamesOf rows
      · exact absurd ⟨hr, hl⟩ hmiss
      · rw [pyIndex_of_not_mem _ _ hl]
        rfl
    · rw [pyIndex_of_not_mem _ _ hr]
      rfl

/-- C10 witness: a 132-row csv with no landmark labels raises a ValueError
from the lookup on both paths. -/
theorem missing_label_raises_valueerror_paths_witness :
    raisesValueError (ant_mne_create_montage_new rows132bad) = true ∧
    raisesValueError (ant_mne_create_montage_old rows132bad wDig0 wMont0) = true :=
  ⟨(missing_label_raises_valueerror_paths rows132bad wDig0 wMont0).1 (by decide) (by decide),
   (missing_label_raises_valueerror_paths rows132bad wDig0 wMont0).2 (by decide)⟩

end AntMNE
